import Mathlib

set_option maxRecDepth 4000

/-!
Shallow embedding of the kalkon calculator evaluation engine
(`src/kalkon/kalkon.py`, class `Kalkon`) and verification of the
specification claims about it.

The engine state (`KState`) carries the history stack, the value
type/format modes, the transient status message, the error flag, the
edge-triggered `stack_updated` flag, and the state of the live external
interpreter.  The external interpreter (asteval) is not part of this
repository; it is modelled abstractly by `InterpModel`.  Numeric results
are modelled as arbitrary-precision integers (`Int`), matching the
integer claims; the IEEE-754 float32 display paths are delegated to
oracle functions (`FloatOps`) since floating point has no shallow
embedding here.

Python `None` values inside history slots are modelled with `Option`;
a Python function that can raise an exception is modelled with an outer
`Option` whose `none` means an uncaught exception.
-/

namespace Kalkon

/-- Value Type class (`ValueType` enum in the source). -/
inductive ValueType where
  | F32
  | INT8
  | INT16
  | INT32
  | INT64
  | UINT8
  | UINT16
  | UINT32
  | UINT64
  deriving DecidableEq

/-- Value System class (`ValueFormat` enum in the source). -/
inductive ValueFormat where
  | DECIMAL
  | HEXADECIMAL
  | BINARY
  deriving DecidableEq

/-- A value produced by the external interpreter: either a numeric value
(modelled as an integer) or a value whose `str()` representation contains
`"<built-in function"` (the case the engine's defensive guard rejects). -/
inductive AVal where
  | vInt (i : Int)
  | vBuiltin (txt : String)
  deriving DecidableEq

/-- Modelled from the spec: the external expression-evaluation engine
(asteval) is not part of this repository.  Per the spec's external
interface section it accepts an expression, returns a result or no
result together with zero or more structured errors (modelled by their
message strings), must support a no-error-raising evaluation mode, and
must support variable binding that persists across calls on the same
instance (the instance state has type `σ`; `fresh` is the state of a
newly constructed instance). -/
structure InterpModel (σ : Type) where
  run : σ → String → Option AVal × List String × σ
  fresh : σ

/-- Modelled from the spec: the F32 display paths pack the value into its
4-byte IEEE-754 representation (`struct.pack("f", value)`), which has no
shallow embedding here; the three renderings are taken as oracle
functions. -/
structure FloatOps where
  bin_f32 : Int → String
  hex_f32 : Int → String
  dec_f32 : Int → String

/-- One history slot: pair `(expression, result)`; `none` models Python
`None`. -/
abbrev Slot := Option String × Option Int

/-- The state of a `Kalkon` instance: the fields set in `__init__`,
plus the live interpreter instance state. -/
structure KState (σ : Type) where
  stack : List Slot
  type_ : ValueType
  format : ValueFormat
  status : String
  error : Bool
  stack_updated : Bool
  interp : σ
  deriving DecidableEq

variable {σ : Type}

/-- `Kalkon._set_type`. -/
def set_type (st : KState σ) (value_type : ValueType) : KState σ :=
  { st with type_ := value_type }

/-- `Kalkon._set_format`. -/
def set_format (st : KState σ) (system : ValueFormat) : KState σ :=
  { st with format := system }

/-- `Kalkon.get_type`. -/
def get_type (st : KState σ) : ValueType :=
  st.type_

/-- `Kalkon.get_format`. -/
def get_format (st : KState σ) : ValueFormat :=
  st.format

/-- `Kalkon.clear`: clear history. -/
def clear (st : KState σ) : KState σ :=
  { st with stack := [], stack_updated := true }

/-- `Kalkon.is_error`. -/
def is_error (st : KState σ) : Bool :=
  st.error

/-- `Kalkon.is_stack_updated`: returns the flag and resets it to false. -/
def is_stack_updated (st : KState σ) : Bool × KState σ :=
  (st.stack_updated, { st with stack_updated := false })

/-- `Kalkon.get_status`. -/
def get_status (st : KState σ) : String :=
  st.status

/-- `Kalkon.__init__`: fields are initialised, then `clear()` is called.
`fresh` is the newly constructed live interpreter instance. -/
def init_state (σ : Type) (fresh : σ) : KState σ :=
  clear
    { stack := [], type_ := ValueType.INT64, format := ValueFormat.DECIMAL,
      status := "", error := false, stack_updated := false, interp := fresh }

/-- `Kalkon._is_signed_type`. -/
def is_signed_type (st : KState σ) : Bool :=
  if st.type_ = ValueType.INT8 ∨ st.type_ = ValueType.INT16 ∨
      st.type_ = ValueType.INT32 ∨ st.type_ = ValueType.INT64 then
    true
  else
    false

/-- The width selection of `Kalkon._get_typed_result` (the
`if/elif` chain on `self._type`; the initial `width = 1` default covers
the remaining `F32` case, which is unreachable there). -/
def width_of : ValueType → Nat
  | ValueType.INT8 | ValueType.UINT8 => 1
  | ValueType.INT16 | ValueType.UINT16 => 2
  | ValueType.INT32 | ValueType.UINT32 => 4
  | ValueType.INT64 | ValueType.UINT64 => 8
  | ValueType.F32 => 1

/-- Little-endian byte list (length `n`) of a natural number, as produced
by Python `int.to_bytes(n, "little")` of a value already reduced mod
`2^(8*n)`. -/
def to_bytes_le : Nat → Nat → List Nat
  | 0, _ => []
  | Nat.succ n, v => (v % 256) :: to_bytes_le n (v / 256)

/-- Unsigned little-endian byte-list decoding, as in Python
`int.from_bytes(bytes, "little", signed=False)`. -/
def from_bytes_le_unsigned : List Nat → Nat
  | [] => 0
  | b :: bs => b + 256 * from_bytes_le_unsigned bs

/-- Python `int.from_bytes(bytes, "little", signed=signed)`. -/
def from_bytes_le (signed : Bool) (bs : List Nat) : Int :=
  let m := from_bytes_le_unsigned bs
  if signed = true ∧ 2 ^ (8 * bs.length - 1) ≤ m then
    (m : Int) - 2 ^ (8 * bs.length)
  else
    (m : Int)

/-- `Kalkon._get_typed_result`.  `int(value).to_bytes(8, "little",
signed=True)` succeeds exactly when the value fits an 8-byte signed
container and yields the little-endian bytes of `value mod 2^64`; an
`OverflowError` is caught and turned into `None` (here: `none`). -/
def get_typed_result (st : KState σ) (value : Int) : Option Int :=
  if st.type_ = ValueType.F32 then
    some value
  else if -(2 ^ 63) ≤ value ∧ value < 2 ^ 63 then
    some (from_bytes_le (is_signed_type st)
      ((to_bytes_le 8 ((value % 2 ^ 64).toNat)).take (width_of st.type_)))
  else
    none

/-- Digits of `n` in base `b`, lowercase, as Python `format(n, "b")` /
`format(n, "x")` render a non-negative integer. -/
def nat_to_base (b n : Nat) : String :=
  (Nat.toDigits b n).asString

/-- `Kalkon._get_formatted_result`.  `str` of a Python integer is decimal
with a leading `-` for negatives, i.e. `toString` of `Int`. -/
def get_formatted_result (fo : FloatOps) (st : KState σ) (value : Option Int) : String :=
  match value with
  | none => ""
  | some v =>
    if st.format = ValueFormat.BINARY then
      if st.type_ = ValueType.F32 then fo.bin_f32 v
      else (if v < 0 then "-" else "") ++ "0b" ++ nat_to_base 2 v.natAbs
    else if st.format = ValueFormat.HEXADECIMAL then
      if st.type_ = ValueType.F32 then fo.hex_f32 v
      else (if v < 0 then "-" else "") ++ "0x" ++ nat_to_base 16 v.natAbs
    else
      if st.type_ = ValueType.F32 then fo.dec_f32 v
      else toString v

/-- Python list indexing `l[i]` (negative indices count from the end);
`none` models an `IndexError`. -/
def py_list_get {α : Type} (l : List α) (i : Int) : Option α :=
  let j : Int := if i < 0 then i + (l.length : Int) else i
  if h : 0 ≤ j ∧ j < (l.length : Int) then
    some (l.get ⟨j.toNat, by omega⟩)
  else
    none

/-- `Kalkon.get_result`.  The outer `Option` models an uncaught
exception (`none`); the inner `String` is the returned text. -/
def get_result (fo : FloatOps) (st : KState σ) (index : Int) : Option String :=
  if index ≥ (st.stack.length : Int) then
    some ""
  else
    match py_list_get st.stack index with
    | none => none
    | some s =>
      match s.2 with
      | none => some ""
      | some value => some (get_formatted_result fo st (get_typed_result st value))

/-- `Kalkon.get_expression`.  The outer `Option` models an uncaught
exception; the inner `Option String` is the returned Python value,
which is the slot's stored expression field and may be `None`. -/
def get_expression (st : KState σ) (index : Int) : Option (Option String) :=
  if index ≥ (st.stack.length : Int) then
    some (some "")
  else
    match py_list_get st.stack index with
    | none => none
    | some s => some s.1

/-- `Kalkon._push`: `self._stack[0] = (None, None)` raises `IndexError`
on an empty stack (modelled by `none`); otherwise the head is reset and
the new entry is inserted at position 1. -/
def push (st : KState σ) (expression : String) (result : Option Int) :
    Option (KState σ) :=
  match st.stack with
  | [] => none
  | _ :: rest =>
    some { st with stack := (none, none) :: (some expression, result) :: rest,
                   stack_updated := true }

/-- `Kalkon.pop`: pop item from stack. -/
def pop (st : KState σ) : Option String × KState σ :=
  match st.stack with
  | [] => (some "", st)
  | [_] => (some "", { st with stack := [], stack_updated := true })
  | _ :: s1 :: rest =>
    (s1.1, { st with stack := (none, none) :: rest, stack_updated := true })

/-- `Kalkon._set`: both Python branches (`append` on an empty stack,
assignment to index 0 otherwise) produce `(e, r) :: tail`. -/
def set_slot (st : KState σ) (expression : Option String) (result : Option Int) :
    KState σ :=
  { st with stack := (expression, result) :: st.stack.tail, stack_updated := true }

/-- `STACK_DEPTH` class attribute of `Kalkon`. -/
def STACK_DEPTH : Nat := 5

/-- Python `expression.startswith(":")`. -/
def py_starts_with_colon (s : String) : Bool :=
  match s.data with
  | [] => false
  | c :: _ => c = ':'

/-- Whether the character list `pat` begins the second list. -/
def leads_with : List Char → List Char → Bool
  | [], _ => true
  | _ :: _, [] => false
  | p :: ps, h :: hs => p = h && leads_with ps hs

/-- Whether the character list `pat` occurs contiguously in the second
list. -/
def occurs_in (pat : List Char) : List Char → Bool
  | [] => leads_with pat []
  | h :: hs => leads_with pat (h :: hs) || occurs_in pat hs

/-- Python substring test `pat in hay`. -/
def py_contains (hay pat : String) : Bool :=
  occurs_in pat.data hay.data

/-- The `_cmd_dict` of `Kalkon._process_command`: the fixed command
table, mapping a command token to its effect on the engine state. -/
def cmd_action (e : String) : Option (KState σ → KState σ) :=
  match e with
  | ":dec" => some (fun s => set_format s ValueFormat.DECIMAL)
  | ":hex" => some (fun s => set_format s ValueFormat.HEXADECIMAL)
  | ":bin" => some (fun s => set_format s ValueFormat.BINARY)
  | ":f32" => some (fun s => set_type s ValueType.F32)
  | ":i8" => some (fun s => set_type s ValueType.INT8)
  | ":i16" => some (fun s => set_type s ValueType.INT16)
  | ":i32" => some (fun s => set_type s ValueType.INT32)
  | ":i64" => some (fun s => set_type s ValueType.INT64)
  | ":u8" => some (fun s => set_type s ValueType.UINT8)
  | ":u16" => some (fun s => set_type s ValueType.UINT16)
  | ":u32" => some (fun s => set_type s ValueType.UINT32)
  | ":u64" => some (fun s => set_type s ValueType.UINT64)
  | ":clear" => some (fun s => clear s)
  | _ => none

/-- The command tokens of the fixed table, in source order. -/
def cmd_list : List String :=
  [":dec", ":hex", ":bin", ":f32", ":i8", ":i16", ":i32", ":i64",
   ":u8", ":u16", ":u32", ":u64", ":clear"]

/-- `Kalkon._process_command`: returns whether the expression was handled
as a command, together with the updated state. -/
def process_command (st : KState σ) (expression : String) (enter : Bool) :
    Bool × KState σ :=
  if py_starts_with_colon expression = false then
    (false, st)
  else
    match cmd_action (σ := σ) expression with
    | some act =>
      if enter then (true, act st)
      else (true, { st with status := "CMD: " ++ expression })
    | none =>
      (true, { st with status := "Unknown command \x27" ++ expression ++ "\x27" })

/-- `Kalkon._validate_set_variable`: the assignment detector.  The dry
run uses a freshly created interpreter instance (`I.fresh`), never the
live one. -/
def validate_set_variable (I : InterpModel σ) (expression : String) : Bool :=
  if py_contains expression "==" then false
  else if py_contains expression "=" = false then false
  else
    let r := I.run I.fresh expression
    if r.2.1.length > 0 then false else true

/-- The value stored into a history slot for an interpreter result:
numeric results are kept, anything else is Python `None` here (the
built-in-function case never reaches a slot because of the guard in
`evaluate`). -/
def to_int_opt : Option AVal → Option Int
  | some (AVal.vInt i) => some i
  | _ => none

/-- The defensive guard of `Kalkon.evaluate`:
`result is not None and "<built-in function" in str(result)`. -/
def is_builtin_repr : Option AVal → Bool
  | some (AVal.vBuiltin _) => true
  | _ => false

/-- `Kalkon.evaluate`.  Returns `none` for an uncaught exception
(`_push` on an empty stack); otherwise `some (committed, newState)`. -/
def evaluate (I : InterpModel σ) (st0 : KState σ) (expression : String)
    (enter : Bool) : Option (Bool × KState σ) :=
  let st := { st0 with status := "", error := false }
  if expression = "" then
    some (false, set_slot st none none)
  else
    let pc := process_command st expression enter
    if pc.1 then
      if pc.2.status ≠ "" then some (false, pc.2)
      else if enter then some (true, set_slot pc.2 none none)
      else some (false, pc.2)
    else if validate_set_variable I expression then
      if enter then
        let st2 := set_slot { st with status := "Set " ++ expression } none none
        let r := I.run st2.interp expression
        some (true, { st2 with interp := r.2.2 })
      else
        some (false, { st with status := "Set " ++ expression })
    else
      let r := I.run st.interp expression
      let st3 := { st with interp := r.2.2 }
      if is_builtin_repr r.1 then
        some (false, st3)
      else
        match r.2.1 with
        | [] =>
          if enter then
            (push st3 expression (to_int_opt r.1)).map (fun s => (true, s))
          else
            some (false, set_slot st3 (some expression) (to_int_opt r.1))
        | e :: _ =>
          some (false, { st3 with status := e, error := true })

/-- Iterated consumption of the `stack_updated` flag: apply
`is_stack_updated` `k` times, keeping only the state. -/
def read_iter : Nat → KState σ → KState σ
  | 0, s => s
  | Nat.succ k, s => read_iter k (is_stack_updated s).2

/-- A concrete engine state over a trivial interpreter instance, used to
instantiate theorems at concrete inputs. -/
def mk_state (stack : List Slot) (t : ValueType) (f : ValueFormat) (u : Bool) :
    KState Unit :=
  { stack := stack, type_ := t, format := f, status := "", error := false,
    stack_updated := u, interp := () }

/-- An interpreter model that evaluates every expression with no result
and no errors; used to instantiate theorems at concrete inputs. -/
def ok_model : InterpModel Unit :=
  ⟨fun s _ => (none, ([], s)), ()⟩

/-- Trivial float-display oracles, used to instantiate theorems at
concrete inputs (no theorem below depends on their values). -/
def fo_triv : FloatOps :=
  ⟨fun _ => "", fun _ => "", fun _ => ""⟩

/-- Modelled from the spec: the external interpreter (asteval) is not in
this repository; per the spec's external-interface section it must
support variable binding that persists across calls on the same
instance.  This instance models an interpreter for which the input
`x=(1==1)` is a valid assignment statement that binds `x`, produces no
value and no error — exactly how asteval treats it — while every other
input reports an error.  Instance state: the list of bindings. -/
def assign_model : InterpModel (List (String × Int)) where
  run := fun s e =>
    if e = "x=(1==1)" then (none, ([], ("x", 1) :: s))
    else (none, (["invalid"], s))
  fresh := []

/-- Starting state for the bounded-depth experiment: a stack holding
only the preview slot. -/
def c7_start : KState Unit :=
  mk_state [(none, none)] ValueType.INT64 ValueFormat.DECIMAL false

/-- Push `STACK_DEPTH + 1 = 6` distinct expressions through
`Kalkon._push`. -/
def c7_end : Option (KState Unit) :=
  (push c7_start "e1" (some 1)).bind fun s1 =>
  (push s1 "e2" (some 2)).bind fun s2 =>
  (push s2 "e3" (some 3)).bind fun s3 =>
  (push s3 "e4" (some 4)).bind fun s4 =>
  (push s4 "e5" (some 5)).bind fun s5 =>
  push s5 "e6" (some 6)

/-- Every effect in the command table leaves the live interpreter
instance untouched. -/
theorem cmd_action_interp (e : String) (act : KState σ → KState σ)
    (h : cmd_action (σ := σ) e = some act) (s : KState σ) :
    (act s).interp = s.interp := by
  unfold cmd_action at h
  split at h
  all_goals first
    | exact Option.noConfusion h
    | (cases h; rfl)

/-- `_process_command` never touches the live interpreter instance. -/
theorem process_command_interp (st : KState σ) (e : String) (b : Bool) :
    ((process_command st e b).2).interp = st.interp := by
  unfold process_command
  split
  · rfl
  · cases hca : cmd_action (σ := σ) e with
    | none => rfl
    | some act =>
      cases b with
      | false => rfl
      | true => exact cmd_action_interp e act hca st

/-- Claim C10: a freshly constructed engine starts with `ValueType`
`INT64`, `ValueFormat` `DECIMAL`, an empty history stack, empty status
and error flag false; since the constructor calls `clear()`, the
`stack_updated` flag is already true at construction, so the very first
`is_stack_updated()` call returns true before any other operation. -/
theorem c10_initial_state :
    get_type (init_state Unit ()) = ValueType.INT64 ∧
    get_format (init_state Unit ()) = ValueFormat.DECIMAL ∧
    (init_state Unit ()).stack = [] ∧
    get_status (init_state Unit ()) = "" ∧
    is_error (init_state Unit ()) = false ∧
    (init_state Unit ()).stack_updated = true ∧
    (is_stack_updated (init_state Unit ())).1 = true := by
  decide

/-- Claim C2 (amended): `pop()` returns the expression field of the slot
at position 1 (the empty string if no such slot exists), removes the
head element, resets the new head (if any remains) to the empty pair and
sets `stack_updated` — but the flag is only set when the stack was
non-empty; `pop()` on an empty stack returns the empty string, leaves
the state (including the flag) unchanged, and raises no error. -/
theorem c2_pop (σ : Type) (st : KState σ) :
    (st.stack = [] → pop st = (some "", st)) ∧
    (∀ s0, st.stack = [s0] →
      pop st = (some "", { st with stack := [], stack_updated := true })) ∧
    (∀ s0 s1 rest, st.stack = s0 :: s1 :: rest →
      pop st = (s1.1, { st with stack := (none, none) :: rest,
                                stack_updated := true })) := by
  refine ⟨?_, ?_, ?_⟩
  · intro h; unfold pop; split <;> simp_all
  · intro s0 h; unfold pop; split <;> simp_all
  · intro s0 s1 rest h; unfold pop; split <;> simp_all

/-- Witness for C2: on a stack `[preview, A, B]`, `pop` returns `A`'s
expression, leaves `[empty, B]` and sets the updated flag. -/
theorem c2_pop_witness :
    pop (mk_state [(none, none), (some "a", some 1), (some "b", some 2)]
          ValueType.INT64 ValueFormat.DECIMAL false) =
      (some "a",
        mk_state [(none, none), (some "b", some 2)]
          ValueType.INT64 ValueFormat.DECIMAL true) :=
  (c2_pop Unit _).2.2 (none, none) (some "a", some 1) [(some "b", some 2)] rfl

/-- Counterexample for C2 as stated: `pop()` on an empty stack does not
set the `stack_updated` flag (the claim asserts that every `pop()` sets
it); it does return the empty string without error. -/
theorem c2_pop_counterexample :
    (pop (mk_state [] ValueType.INT64 ValueFormat.DECIMAL false)).2.stack_updated
        = false ∧
    (pop (mk_state [] ValueType.INT64 ValueFormat.DECIMAL false)).1 = some "" := by
  decide

/-- Claim C5: the `stack_updated` flag is set by every stack mutation
(`push`, `set`, `pop` of a non-empty stack, `clear`) and stays until the
next `is_stack_updated()` call, which returns the flag and resets it to
false; after such a read, any further reads return false until the next
mutation. -/
theorem c5_stack_updated (σ : Type) (st : KState σ) (e : String) (r : Option Int)
    (e2 : Option String) (r2 : Option Int) :
    (∀ st2, push st e r = some st2 → st2.stack_updated = true) ∧
    (set_slot st e2 r2).stack_updated = true ∧
    (clear st).stack_updated = true ∧
    (st.stack ≠ [] → (pop st).2.stack_updated = true) ∧
    is_stack_updated st = (st.stack_updated, { st with stack_updated := false }) ∧
    (∀ k, (is_stack_updated (read_iter k (is_stack_updated st).2)).1 = false) := by
  have key : ∀ (k : Nat) (s : KState σ), s.stack_updated = false →
      (read_iter k s).stack_updated = false := by
    intro k
    induction k with
    | zero => intro s h; exact h
    | succ n ih => intro s h; exact ih _ rfl
  refine ⟨?_, rfl, rfl, ?_, rfl, ?_⟩
  · intro st2 h; unfold push at h; split at h
    · exact Option.noConfusion h
    · cases h; rfl
  · intro h; unfold pop; split <;> simp_all
  · intro k; exact key k _ rfl

/-- Witness for C5: a successful `push` and a `pop` of a non-empty stack
both leave the flag set. -/
theorem c5_stack_updated_witness :
    (mk_state [(none, none), (some "b", some 2)]
        ValueType.INT64 ValueFormat.DECIMAL true).stack_updated = true ∧
    (pop (mk_state [(some "a", some 1)]
        ValueType.INT64 ValueFormat.DECIMAL false)).2.stack_updated = true := by
  have h := c5_stack_updated Unit
    (mk_state [(some "a", some 1)] ValueType.INT64 ValueFormat.DECIMAL false)
    "b" (some 2) none none
  refine ⟨?_, h.2.2.2.1 (by decide)⟩
  exact h.1
    (mk_state [(none, none), (some "b", some 2)]
      ValueType.INT64 ValueFormat.DECIMAL true) (by decide)

/-- Claim C7 (code bug in `Kalkon._push`): `STACK_DEPTH = 5` is declared
but `_push` never trims the stack, so pushing `STACK_DEPTH + 1 = 6`
distinct expressions leaves all six committed entries — the stack holds
the preview slot plus six entries and the oldest expression `e1` is
still present, where the claim requires exactly five entries with `e1`
evicted. -/
theorem c7_push_never_trims :
    STACK_DEPTH = 5 ∧
    c7_end.map (fun s => s.stack.map (fun p => p.1)) =
      some [none, some "e6", some "e5", some "e4", some "e3", some "e2",
            some "e1"] ∧
    c7_end.map (fun s => s.stack.length) = some (STACK_DEPTH + 2) := by
  decide

/-- Claim C1: for every command token in the fixed table,
`evaluate(cmd, enter=true)` applies the command's effect (the
corresponding mode getter changes, or the history is cleared for
`:clear`), returns committed (`true`) and leaves the status empty;
`evaluate(cmd, enter=false)` leaves mode and stack unchanged, returns
not committed (`false`) and sets the status to exactly `"CMD: <cmd>"`. -/
theorem c1_commands (σ : Type) (I : InterpModel σ) (st : KState σ) (cmd : String)
    (hm : cmd ∈ cmd_list) :
    (∃ st2, evaluate I st cmd false = some (false, st2) ∧
      st2.status = "CMD: " ++ cmd ∧
      get_type st2 = get_type st ∧ get_format st2 = get_format st ∧
      st2.stack = st.stack) ∧
    (∃ st1, evaluate I st cmd true = some (true, st1) ∧ st1.status = "" ∧
      ((cmd = ":dec" ∧ get_format st1 = ValueFormat.DECIMAL) ∨
       (cmd = ":hex" ∧ get_format st1 = ValueFormat.HEXADECIMAL) ∨
       (cmd = ":bin" ∧ get_format st1 = ValueFormat.BINARY) ∨
       (cmd = ":f32" ∧ get_type st1 = ValueType.F32) ∨
       (cmd = ":i8" ∧ get_type st1 = ValueType.INT8) ∨
       (cmd = ":i16" ∧ get_type st1 = ValueType.INT16) ∨
       (cmd = ":i32" ∧ get_type st1 = ValueType.INT32) ∨
       (cmd = ":i64" ∧ get_type st1 = ValueType.INT64) ∨
       (cmd = ":u8" ∧ get_type st1 = ValueType.UINT8) ∨
       (cmd = ":u16" ∧ get_type st1 = ValueType.UINT16) ∨
       (cmd = ":u32" ∧ get_type st1 = ValueType.UINT32) ∨
       (cmd = ":u64" ∧ get_type st1 = ValueType.UINT64) ∨
       (cmd = ":clear" ∧ st1.stack = [(none, none)]))) := by
  simp only [cmd_list, List.mem_cons, List.not_mem_nil, or_false] at hm
  rcases hm with rfl | rfl | rfl | rfl | rfl | rfl | rfl | rfl | rfl | rfl | rfl | rfl | rfl
  · exact ⟨⟨_, rfl, rfl, rfl, rfl, rfl⟩, ⟨_, rfl, rfl, Or.inl ⟨rfl, rfl⟩⟩⟩
  · exact ⟨⟨_, rfl, rfl, rfl, rfl, rfl⟩, ⟨_, rfl, rfl,
      Or.inr (Or.inl ⟨rfl, rfl⟩)⟩⟩
  · exact ⟨⟨_, rfl, rfl, rfl, rfl, rfl⟩, ⟨_, rfl, rfl,
      Or.inr (Or.inr (Or.inl ⟨rfl, rfl⟩))⟩⟩
  · exact ⟨⟨_, rfl, rfl, rfl, rfl, rfl⟩, ⟨_, rfl, rfl,
      Or.inr (Or.inr (Or.inr (Or.inl ⟨rfl, rfl⟩)))⟩⟩
  · exact ⟨⟨_, rfl, rfl, rfl, rfl, rfl⟩, ⟨_, rfl, rfl,
      Or.inr (Or.inr (Or.inr (Or.inr (Or.inl ⟨rfl, rfl⟩))))⟩⟩
  · exact ⟨⟨_, rfl, rfl, rfl, rfl, rfl⟩, ⟨_, rfl, rfl,
      Or.inr (Or.inr (Or.inr (Or.inr (Or.inr (Or.inl ⟨rfl, rfl⟩)))))⟩⟩
  · exact ⟨⟨_, rfl, rfl, rfl, rfl, rfl⟩, ⟨_, rfl, rfl,
      Or.inr (Or.inr (Or.inr (Or.inr (Or.inr (Or.inr
        (Or.inl ⟨rfl, rfl⟩))))))⟩⟩
  · exact ⟨⟨_, rfl, rfl, rfl, rfl, rfl⟩, ⟨_, rfl, rfl,
      Or.inr (Or.inr (Or.inr (Or.inr (Or.inr (Or.inr (Or.inr
        (Or.inl ⟨rfl, rfl⟩)))))))⟩⟩
  · exact ⟨⟨_, rfl, rfl, rfl, rfl, rfl⟩, ⟨_, rfl, rfl,
      Or.inr (Or.inr (Or.inr (Or.inr (Or.inr (Or.inr (Or.inr (Or.inr
        (Or.inl ⟨rfl, rfl⟩))))))))⟩⟩
  · exact ⟨⟨_, rfl, rfl, rfl, rfl, rfl⟩, ⟨_, rfl, rfl,
      Or.inr (Or.inr (Or.inr (Or.inr (Or.inr (Or.inr (Or.inr (Or.inr
        (Or.inr (Or.inl ⟨rfl, rfl⟩)))))))))⟩⟩
  · exact ⟨⟨_, rfl, rfl, rfl, rfl, rfl⟩, ⟨_, rfl, rfl,
      Or.inr (Or.inr (Or.inr (Or.inr (Or.inr (Or.inr (Or.inr (Or.inr
        (Or.inr (Or.inr (Or.inl ⟨rfl, rfl⟩))))))))))⟩⟩
  · exact ⟨⟨_, rfl, rfl, rfl, rfl, rfl⟩, ⟨_, rfl, rfl,
      Or.inr (Or.inr (Or.inr (Or.inr (Or.inr (Or.inr (Or.inr (Or.inr
        (Or.inr (Or.inr (Or.inr (Or.inl ⟨rfl, rfl⟩)))))))))))⟩⟩
  · exact ⟨⟨_, rfl, rfl, rfl, rfl, rfl⟩, ⟨_, rfl, rfl,
      Or.inr (Or.inr (Or.inr (Or.inr (Or.inr (Or.inr (Or.inr (Or.inr
        (Or.inr (Or.inr (Or.inr (Or.inr ⟨rfl, rfl⟩)))))))))))⟩⟩

/-- Witness for C1: the `:hex` command, committed and previewed from the
freshly constructed engine. -/
theorem c1_commands_witness :
    (evaluate ok_model (init_state Unit ()) ":hex" true).map
        (fun r => (r.1, r.2.status, get_format r.2)) =
      some (true, "", ValueFormat.HEXADECIMAL) ∧
    (evaluate ok_model (init_state Unit ()) ":hex" false).map
        (fun r => (r.1, r.2.status, get_format r.2)) =
      some (false, "CMD: :hex", ValueFormat.DECIMAL) := by
  obtain ⟨⟨st2, h2, hs2, ht2, hf2, hk2⟩, st1, h1, hs1, hor⟩ :=
    c1_commands Unit ok_model (init_state Unit ()) ":hex" (by decide)
  constructor
  · rw [h1]
    show some (true, st1.status, get_format st1) =
      some (true, "", ValueFormat.HEXADECIMAL)
    rcases hor with ⟨hc, hf⟩ | ⟨hc, hf⟩ | ⟨hc, hf⟩ | ⟨hc, hf⟩ | ⟨hc, hf⟩ |
      ⟨hc, hf⟩ | ⟨hc, hf⟩ | ⟨hc, hf⟩ | ⟨hc, hf⟩ | ⟨hc, hf⟩ | ⟨hc, hf⟩ |
      ⟨hc, hf⟩ | ⟨hc, hf⟩ <;>
      first
        | exact absurd hc (by decide)
        | rw [hs1, hf]
  · rw [h2]
    show some (false, st2.status, get_format st2) =
      some (false, "CMD: :hex", ValueFormat.DECIMAL)
    rw [hs2, hf2]
    decide

/-- Claim C6: the assignment detector returns false for every expression
containing `==` (even when it also contains `=`), returns false for
every expression containing no `=`, and otherwise returns true iff the
dry run on a freshly created interpreter instance (with error reporting
suppressed) reports zero errors.  The dry run structurally cannot touch
the live interpreter: `validate_set_variable` only ever evaluates from
`I.fresh`, the state of a newly created instance. -/
theorem c6_assignment_detector (σ : Type) (I : InterpModel σ) (e : String) :
    (py_contains e "==" = true → validate_set_variable I e = false) ∧
    (py_contains e "=" = false → validate_set_variable I e = false) ∧
    (py_contains e "==" = false → py_contains e "=" = true →
      (validate_set_variable I e = true ↔ (I.run I.fresh e).2.1 = [])) := by
  unfold validate_set_variable
  refine ⟨?_, ?_, ?_⟩
  · intro h; simp [h]
  · intro h; by_cases h2 : py_contains e "==" <;> simp [h, h2]
  · intro h1 h2
    simp only [h1, h2, Bool.false_eq_true, if_false, if_true]
    rcases hl : (I.run I.fresh e).2.1 with _ | ⟨a, l⟩ <;> simp [hl]

/-- Witness for C6: `x==1` contains `==` (rejected), `abc` contains no
`=` (rejected), and `x=1` is accepted exactly because the dry run on the
fresh instance of `ok_model` reports no errors. -/
theorem c6_assignment_detector_witness :
    validate_set_variable ok_model "x==1" = false ∧
    validate_set_variable ok_model "abc" = false ∧
    validate_set_variable ok_model "x=1" = true := by
  have h1 := c6_assignment_detector Unit ok_model "x==1"
  have h2 := c6_assignment_detector Unit ok_model "abc"
  have h3 := c6_assignment_detector Unit ok_model "x=1"
  exact ⟨h1.1 (by decide), h2.2.1 (by decide),
    (h3.2.2 (by decide) (by decide)).mpr rfl⟩

/-- Claim C8 (amended): a preview call (`enter=false`) leaves the live
interpreter's binding state unchanged when the input is empty, a
`:`-prefixed command, or an expression the assignment detector accepts;
for any other expression the live interpreter is invoked even during
preview, and its binding state changes exactly as that call dictates
(see the counterexample). -/
theorem c8_preview_bindings (σ : Type) (I : InterpModel σ) (st : KState σ)
    (e : String)
    (h : e = "" ∨ py_starts_with_colon e = true ∨ validate_set_variable I e = true) :
    ∀ r, evaluate I st e false = some r → r.2.interp = st.interp := by
  intro r hr
  simp only [evaluate] at hr
  by_cases he : e = ""
  · rw [if_pos he] at hr
    cases hr
    rfl
  · rw [if_neg he] at hr
    by_cases hc : py_starts_with_colon e = true
    · have hpc1 : (process_command { st with status := "", error := false } e false).1
          = true := by
        unfold process_command
        rw [if_neg (by simp [hc])]
        cases hca : cmd_action (σ := σ) e <;> rfl
      rw [if_pos hpc1] at hr
      have hint := process_command_interp { st with status := "", error := false } e false
      split at hr
      · cases hr; exact hint
      · cases hr; exact hint
    · have hcf : py_starts_with_colon e = false := by
        simpa using hc
      have hpc : process_command { st with status := "", error := false } e false =
          (false, { st with status := "", error := false }) := by
        unfold process_command
        rw [if_pos hcf]
      rw [hpc] at hr
      simp only [Bool.false_eq_true, if_false] at hr
      rcases h with h | h | h
      · exact absurd h he
      · exact absurd h hc
      · rw [if_pos h] at hr
        cases hr
        rfl

/-- Witness for C8 (amended): previewing the `:dec` command over an
interpreter instance holding a binding leaves that binding state
unchanged. -/
theorem c8_preview_bindings_witness :
    (evaluate assign_model (init_state (List (String × Int)) [("y", 7)]) ":dec"
        false).map (fun r => r.2.interp) = some [("y", 7)] := by
  have h := c8_preview_bindings (List (String × Int)) assign_model
    (init_state (List (String × Int)) [("y", 7)]) ":dec" (Or.inr (Or.inl rfl))
  have he : evaluate assign_model (init_state (List (String × Int)) [("y", 7)])
      ":dec" false =
      some (false, { init_state (List (String × Int)) [("y", 7)] with
                      status := "CMD: " ++ ":dec", error := false }) := rfl
  rw [he]
  exact congrArg some (h _ he)

/-- Counterexample for C8 as stated: the expression `x=(1==1)` contains
`==`, so the assignment detector rejects it and the preview call
evaluates it through the live interpreter, which binds `x` — the live
binding state changes during a preview (`enter=false`) call. -/
theorem c8_preview_bindings_counterexample :
    (evaluate assign_model (init_state (List (String × Int)) []) "x=(1==1)"
        false).map (fun r => r.2.interp) = some [("x", 1)] ∧
    (init_state (List (String × Int)) []).interp = [] :=
  ⟨rfl, rfl⟩

theorem to_bytes_le_length (w v : Nat) : (to_bytes_le w v).length = w := by
  induction w generalizing v with
  | zero => rfl
  | succ n ih => simp [to_bytes_le, ih]

theorem take_to_bytes_le (w n v : Nat) (h : w ≤ n) :
    (to_bytes_le n v).take w = to_bytes_le w v := by
  induction w generalizing n v with
  | zero => simp [to_bytes_le]
  | succ m ih =>
    cases n with
    | zero => omega
    | succ k =>
      simp only [to_bytes_le, List.take_succ_cons]
      rw [ih k (v / 256) (by omega)]

theorem from_to_bytes_le (w v : Nat) :
    from_bytes_le_unsigned (to_bytes_le w v) = v % 256 ^ w := by
  induction w generalizing v with
  | zero => simp [to_bytes_le, from_bytes_le_unsigned, Nat.mod_one]
  | succ n ih =>
    simp only [to_bytes_le, from_bytes_le_unsigned, ih]
    rw [pow_succ, mul_comm (256 ^ n) 256, Nat.mod_mul]

/-- The byte round trip of `_get_typed_result` — encode as 8 signed
little-endian bytes, truncate to `w` bytes, decode with signedness
`sgn` — equals reduction of the value modulo `2^(8*w)` followed by
two's-complement reinterpretation. -/
theorem typed_reinterpret (sgn : Bool) (w : Nat) (h8 : w ≤ 8) (v : Int) :
    from_bytes_le sgn ((to_bytes_le 8 ((v % 2 ^ 64).toNat)).take w) =
      (if sgn = true ∧ 2 ^ (8 * w - 1) ≤ v % 2 ^ (8 * w) then
        v % 2 ^ (8 * w) - 2 ^ (8 * w)
      else v % 2 ^ (8 * w)) := by
  rw [take_to_bytes_le w 8 _ h8]
  simp only [from_bytes_le]
  rw [to_bytes_le_length, from_to_bytes_le]
  have hv64 : (0 : Int) ≤ v % 2 ^ 64 := Int.emod_nonneg v (by positivity)
  have hpow : ((256 : Int)) ^ w = 2 ^ (8 * w) := by
    rw [show ((256 : Int)) = 2 ^ 8 by norm_num, ← pow_mul]
  have hcast : (((v % 2 ^ 64).toNat % 256 ^ w : Nat) : Int) = v % 2 ^ (8 * w) := by
    rw [Int.natCast_mod, Int.toNat_of_nonneg hv64, Nat.cast_pow, Nat.cast_ofNat, hpow]
    exact Int.emod_emod_of_dvd v (pow_dvd_pow 2 (by omega))
  have hcond : (2 ^ (8 * w - 1) ≤ (v % 2 ^ 64).toNat % 256 ^ w) ↔
      ((2 : Int) ^ (8 * w - 1) ≤ v % 2 ^ (8 * w)) := by
    rw [← hcast]
    exact_mod_cast Iff.rfl
  by_cases hc : sgn = true ∧ 2 ^ (8 * w - 1) ≤ (v % 2 ^ 64).toNat % 256 ^ w
  · rw [if_pos hc, if_pos ⟨hc.1, hcond.mp hc.2⟩, hcast]
  · rw [if_neg hc, if_neg (fun hcc => hc ⟨hcc.1, hcond.mpr hcc.2⟩), hcast]

/-- Claim C3: for every integer raw value fitting an 8-byte signed
container and every integer `ValueType`, the reinterpretation truncates
the 8-byte little-endian two's-complement representation to the target
width (`width_of`: 1, 2, 4 or 8 bytes) and reinterprets with the
requested signedness — i.e. it equals reduction mod `2^(8*width)` with
two's-complement sign adjustment; in particular raw value 300 under
`UINT8`/`DECIMAL` displays as `"44"`. -/
theorem c3_typed_result :
    (∀ (σ : Type) (st : KState σ) (v : Int), st.type_ ≠ ValueType.F32 →
      -(2 ^ 63) ≤ v → v < 2 ^ 63 →
      get_typed_result st v =
        some (if is_signed_type st = true ∧
                2 ^ (8 * width_of st.type_ - 1) ≤ v % 2 ^ (8 * width_of st.type_) then
                v % 2 ^ (8 * width_of st.type_) - 2 ^ (8 * width_of st.type_)
              else v % 2 ^ (8 * width_of st.type_))) ∧
    (∀ fo : FloatOps,
      get_result fo (mk_state [(some "300", some 300)] ValueType.UINT8
        ValueFormat.DECIMAL false) 0 = some "44") := by
  constructor
  · intro σ st v ht h1 h2
    have hw8 : width_of st.type_ ≤ 8 := by
      cases hty : st.type_ <;> simp [hty, width_of]
    unfold get_typed_result
    rw [if_neg ht, if_pos ⟨h1, h2⟩]
    exact congrArg some
      (typed_reinterpret (is_signed_type st) (width_of st.type_) hw8 v)
  · intro fo
    rfl

/-- Witness for C3: the raw value 300 under `UINT8` reinterprets to 44
(300 mod 256) and displays as `"44"`. -/
theorem c3_typed_result_witness :
    get_typed_result (mk_state [(some "300", some 300)] ValueType.UINT8
      ValueFormat.DECIMAL false) 300 = some 44 ∧
    get_result fo_triv (mk_state [(some "300", some 300)] ValueType.UINT8
      ValueFormat.DECIMAL false) 0 = some "44" := by
  constructor
  · have h := c3_typed_result.1 Unit
      (mk_state [(some "300", some 300)] ValueType.UINT8 ValueFormat.DECIMAL false)
      300 (by decide) (by decide) (by decide)
    rw [h]
    decide
  · exact c3_typed_result.2 fo_triv

/-- Claim C4: a committed slot whose raw integer value does not fit an
8-byte signed container displays as the empty string under every
non-float `ValueType` — `get_result` returns `some ""` (`some` means no
exception is raised; `get_result` is a pure reader, so the status
message and error flag, which only `evaluate` writes, are untouched). -/
theorem c4_overflow_empty (σ : Type) (st : KState σ) (fo : FloatOps) (i : Int)
    (e : Option String) (v : Int) (ht : st.type_ ≠ ValueType.F32)
    (hs : py_list_get st.stack i = some (e, some v))
    (hv : v < -(2 ^ 63) ∨ 2 ^ 63 ≤ v) :
    get_result fo st i = some "" := by
  have htyped : get_typed_result st v = none := by
    unfold get_typed_result
    rw [if_neg ht, if_neg ?_]
    intro hc
    rcases hv with h | h
    · linarith [hc.1]
    · linarith [hc.2]
  unfold get_result
  by_cases hge : i ≥ (st.stack.length : Int)
  · rw [if_pos hge]
  · rw [if_neg hge, hs]
    show some (get_formatted_result fo st (get_typed_result st v)) = some ""
    rw [htyped]
    rfl

/-- Witness for C4: the value `2^63` (one past the signed 8-byte range)
under `INT64` yields the empty display. -/
theorem c4_overflow_empty_witness :
    get_result fo_triv (mk_state [(some "big", some (2 ^ 63))] ValueType.INT64
      ValueFormat.DECIMAL false) 0 = some "" :=
  c4_overflow_empty Unit _ fo_triv 0 (some "big") (2 ^ 63) (by decide) (by decide)
    (Or.inr (by norm_num))

/-- `py_list_get` succeeds on every in-range non-negative index. -/
theorem py_list_get_in_range {α : Type} (l : List α) (i : Int) (h0 : 0 ≤ i)
    (hl : i < (l.length : Int)) : ∃ x, py_list_get l i = some x := by
  have hneg : ¬ i < 0 := by omega
  simp only [py_list_get, if_neg hneg]
  rw [dif_pos ⟨h0, hl⟩]
  exact ⟨_, rfl⟩

/-- Claim C9 (amended): for every non-negative index the accessors are
total (no exception): an out-of-range index yields the empty string from
both; an in-range slot with an absent result yields the empty string
from `get_result`, while `get_expression` returns the slot's stored
expression field as-is — which is the absent value (`None`), not the
empty string, for an empty slot.  (For negative indices the bounds check
is bypassed: see the counterexample.) -/
theorem c9_accessors (σ : Type) (fo : FloatOps) (st : KState σ) (i : Int)
    (hi : 0 ≤ i) :
    (i ≥ (st.stack.length : Int) →
      get_expression st i = some (some "") ∧ get_result fo st i = some "") ∧
    (∀ s, py_list_get st.stack i = some s →
      get_expression st i = some s.1 ∧
      (s.2 = none → get_result fo st i = some "")) ∧
    (get_expression st i).isSome = true ∧ (get_result fo st i).isSome = true := by
  refine ⟨?_, ?_, ?_, ?_⟩
  · intro h
    constructor
    · unfold get_expression; rw [if_pos h]
    · unfold get_result; rw [if_pos h]
  · intro s hs
    have hlt : ¬ i ≥ (st.stack.length : Int) := by
      intro hge
      have hnone : py_list_get st.stack i = none := by
        have hneg : ¬ i < 0 := by omega
        simp only [py_list_get, if_neg hneg]
        rw [dif_neg (by omega)]
      rw [hnone] at hs
      exact Option.noConfusion hs
    obtain ⟨s1, s2⟩ := s
    constructor
    · unfold get_expression; rw [if_neg hlt, hs]
    · intro h2
      have h3 : s2 = none := h2
      subst h3
      unfold get_result; rw [if_neg hlt, hs]
  · by_cases hge : i ≥ (st.stack.length : Int)
    · unfold get_expression; rw [if_pos hge]; rfl
    · obtain ⟨x, hx⟩ := py_list_get_in_range st.stack i hi (by omega)
      unfold get_expression; rw [if_neg hge, hx]; rfl
  · by_cases hge : i ≥ (st.stack.length : Int)
    · unfold get_result; rw [if_pos hge]; rfl
    · obtain ⟨x, hx⟩ := py_list_get_in_range st.stack i hi (by omega)
      unfold get_result; rw [if_neg hge, hx]
      obtain ⟨x1, x2⟩ := x
      cases x2 <;> rfl

/-- Witness for C9 (amended): at index 0 of a stack holding one empty
slot, `get_expression` returns the stored absent expression and
`get_result` returns the empty string, with no exception. -/
theorem c9_accessors_witness :
    get_expression (mk_state [(none, none)] ValueType.INT64 ValueFormat.DECIMAL
        true) 0 = some none ∧
    get_result fo_triv (mk_state [(none, none)] ValueType.INT64 ValueFormat.DECIMAL
        true) 0 = some "" := by
  have h := (c9_accessors Unit fo_triv
    (mk_state [(none, none)] ValueType.INT64 ValueFormat.DECIMAL true) 0
    (by decide)).2.1 (none, none) (by decide)
  exact ⟨h.1, h.2 rfl⟩

/-- Counterexample for C9 as stated: `get_expression(-1)` on an empty
stack raises an `IndexError` (the bounds check `index >= len` does not
catch negative indices), and `get_expression(0)` on an empty slot
returns the absent value (Python `None`), not the empty string. -/
theorem c9_accessors_counterexample :
    get_expression (mk_state [] ValueType.INT64 ValueFormat.DECIMAL false) (-1)
        = none ∧
    get_expression (mk_state [(none, none)] ValueType.INT64 ValueFormat.DECIMAL
        true) 0 = some none := by
  decide

end Kalkon
